import Mathlib

/-!
Shallow embedding of the PIA qBittorrent port helper (app.py) and proofs
about its reconciliation logic.

The program keeps a torrent client's listening port synchronized with a
port number published into a local file.  We embed the pure decision
logic of the three components the claims are about:

* `QBittorrentAPI` (app.py lines 20-103): `login`, `get_preferences`,
  `set_port`.  HTTP traffic is abstracted by passing each operation the
  response it would receive: `none` models a raised
  `requests.exceptions.RequestException` (network error / timeout),
  `some (status, body)` models a completed HTTP exchange.  Every network
  request an operation actually issues is recorded in an `ApiCall` trace,
  so "no set-port call is made" and "exactly one set-port call" are
  statements about that trace.

* `PortFileHandler.update_port` (app.py lines 124-161): the reconciler.
  The port file is passed as `Option String` (`none` = file missing at
  read time).

* the startup reconciliation block of `main` (app.py lines 213-245),
  embedded as `initial_check`, and the periodic health check of the
  supervisor loop (app.py lines 255-266), embedded as `health_tick`.
-/

/-- A JSON scalar as it appears in the `setPreferences` payload. -/
inductive JsonVal where
  | num (n : Int)
  | bool (b : Bool)
deriving DecidableEq, Repr

/-- The form payload of a `setPreferences` request: an ordered JSON object
(Python dicts preserve insertion order, and `json.dumps` serializes in
that order). -/
abbrev Payload := List (String × JsonVal)

/-- One HTTP request issued to the qBittorrent WebUI API. -/
inductive ApiCall where
  | loginCall
  | getPrefsCall
  | setPrefsCall (payload : Payload)
deriving DecidableEq, Repr

/-- The response an HTTP request receives: `none` models a
`requests.exceptions.RequestException` (connection error or timeout),
`some (status, body)` a completed exchange. -/
abbrev HttpResp (α : Type) := Option (Nat × α)

/-- The parsed JSON object returned by `/api/v2/app/preferences`
(`response.json()`), modelled as an ordered key/value list; only the
integer-valued `listen_port` entry matters to the program. -/
abbrev Prefs := List (String × Int)

/-- State of a `QBittorrentAPI` object (app.py lines 23-29). -/
structure QBState where
  host : String
  username : String
  password : String
  disable_auth : Bool
  logged_in : Bool
deriving DecidableEq, Repr

namespace QBittorrentAPI

/-- Model of `QBittorrentAPI.login` (app.py lines 31-55).  With `disable_auth` it
marks the session logged in without any network call; otherwise it posts
to `/api/v2/auth/login` and succeeds exactly when the status is 200 and
the body is the literal string "Ok.".  On failure `logged_in` is not
assigned. -/
def login (s : QBState) (resp : HttpResp String) : Bool × QBState × List ApiCall :=
  if s.disable_auth then
    (true, { s with logged_in := true }, [])
  else
    match resp with
    | none => (false, s, [.loginCall])
    | some (status, body) =>
      if status = 200 ∧ body = "Ok." then
        (true, { s with logged_in := true }, [.loginCall])
      else
        (false, s, [.loginCall])

/-- The `try` block of `get_preferences` (app.py lines 63-73): the GET to
`/api/v2/app/preferences`; status 200 returns the parsed body, anything
else (or a network error) returns `None`. -/
def prefs_request (s : QBState) (resp : HttpResp Prefs) :
    Option Prefs × QBState × List ApiCall :=
  match resp with
  | none => (none, s, [.getPrefsCall])
  | some (status, body) =>
    if status = 200 then (some body, s, [.getPrefsCall])
    else (none, s, [.getPrefsCall])

/-- Model of `QBittorrentAPI.get_preferences` (app.py lines 57-73): if not logged
in it first attempts `login`, returning `None` when that fails. -/
def get_preferences (s : QBState) (loginResp : HttpResp String)
    (resp : HttpResp Prefs) : Option Prefs × QBState × List ApiCall :=
  if s.logged_in then
    prefs_request s resp
  else
    let (ok, s1, t1) := login s loginResp
    if ok then
      let (r, s2, t2) := prefs_request s1 resp
      (r, s2, t1 ++ t2)
    else
      (none, s1, t1)

/-- The `preferences` dict built by `set_port` (app.py lines 81-85):
exactly three fields, in this order. -/
def set_port_payload (port : Int) : Payload :=
  [("listen_port", .num port), ("upnp", .bool false), ("random_port", .bool false)]

/-- The `try` block of `set_port` (app.py lines 87-103): the POST to
`/api/v2/app/setPreferences`; success is `status == 200`, the body is
never inspected. -/
def set_port_request (s : QBState) (port : Int) (resp : Option Nat) :
    Bool × QBState × List ApiCall :=
  match resp with
  | none => (false, s, [.setPrefsCall (set_port_payload port)])
  | some status => (status == 200, s, [.setPrefsCall (set_port_payload port)])

/-- Model of `QBittorrentAPI.set_port` (app.py lines 75-103): if not logged in it
first attempts `login`, returning failure when that fails. -/
def set_port (s : QBState) (port : Int) (loginResp : HttpResp String)
    (resp : Option Nat) : Bool × QBState × List ApiCall :=
  if s.logged_in then
    set_port_request s port resp
  else
    let (ok, s1, t1) := login s loginResp
    if ok then
      let (r, s2, t2) := set_port_request s1 port resp
      (r, s2, t1 ++ t2)
    else
      (false, s1, t1)

end QBittorrentAPI

/-- A character of Python's default `str.strip()` whitespace set (the
ASCII part: space, tab, newline, carriage return, vertical tab, form
feed). -/
def pyWhitespace (c : Char) : Bool :=
  c == ' ' || c == '\t' || c == '\n' || c == '\r' || c == '\x0b' || c == '\x0c'

/-- Python's `str.strip()` with no arguments: remove leading and
trailing whitespace. -/
def pyStrip (s : String) : String :=
  ⟨(((s.data.dropWhile pyWhitespace).reverse.dropWhile pyWhitespace).reverse)⟩

/-- CPython decimal integer literal digits, as accepted by `int(str)`:
a nonempty digit run in which single underscores may separate digits. -/
def pyDigitsAux : Nat → List Char → Option Nat
  | acc, [] => some acc
  | acc, '_' :: d :: rest =>
    if d.isDigit then pyDigitsAux (acc * 10 + (d.toNat - 48)) rest else none
  | _, ['_'] => none
  | acc, c :: rest =>
    if c.isDigit then pyDigitsAux (acc * 10 + (c.toNat - 48)) rest else none

/-- Digit run that must start with a digit. -/
def pyDigitsStart : List Char → Option Nat
  | [] => none
  | c :: rest => if c.isDigit then pyDigitsAux (c.toNat - 48) rest else none

/-- Python's `int(s)` on an already-stripped string: an optional sign
followed by decimal digits (with optional underscore grouping); anything
else raises `ValueError`, modelled as `none`. -/
def pyInt (s : String) : Option Int :=
  match s.data with
  | '+' :: rest => (pyDigitsStart rest).map Int.ofNat
  | '-' :: rest => (pyDigitsStart rest).map (fun n => -(n : Int))
  | cs => (pyDigitsStart cs).map Int.ofNat

/-- State of a `PortFileHandler` object (app.py lines 109-112): the API
client it drives and `last_port`, the last port confirmed applied
(`None` at construction). -/
structure HandlerState where
  qb : QBState
  last_port : Option Int
deriving DecidableEq, Repr

/-- Model of `PortFileHandler.__init__` (app.py lines 109-112): `last_port`
starts as `None`. -/
def PortFileHandler.mk0 (qb : QBState) : HandlerState := ⟨qb, none⟩

/-- Model of `PortFileHandler.update_port` (app.py lines 124-161).  `file` is the
port file at read time (`none` = missing).  Returns the new handler
state and the trace of API calls issued. -/
def update_port (h : HandlerState) (file : Option String)
    (loginResp : HttpResp String) (setResp : Option Nat) :
    HandlerState × List ApiCall :=
  match file with
  | none => (h, [])
  | some content =>
    let port_str := pyStrip content
    if port_str = "" then
      -- empty file: warn, keep any previously applied port, make no call
      (h, [])
    else
      match pyInt port_str with
      | none => (h, [])
      | some port =>
        if h.last_port = some port then
          (h, [])
        else
          let (ok, qb1, t) := QBittorrentAPI.set_port h.qb port loginResp setResp
          if ok then (⟨qb1, some port⟩, t)
          else (⟨qb1, h.last_port⟩, t)

/-- The startup reconciliation block of `main` (app.py lines 213-245),
run after the initial login, on a fresh `PortFileHandler`.  The inner
`update_port()` call re-reads the file; we pass it the same `file`
value (the file is assumed not to change during the call). -/
def initial_check (h : HandlerState) (file : Option String)
    (gpLoginResp : HttpResp String) (gpResp : HttpResp Prefs)
    (upLoginResp : HttpResp String) (setResp : Option Nat) :
    HandlerState × List ApiCall :=
  match file with
  | none => (h, [])
  | some content =>
    let file_port_str := pyStrip content
    if file_port_str = "" then (h, [])
    else
      match pyInt file_port_str with
      | none => (h, [])  -- ValueError caught at app.py line 241
      | some file_port =>
        let (prefs, qb1, t1) := QBittorrentAPI.get_preferences h.qb gpLoginResp gpResp
        let h1 : HandlerState := ⟨qb1, h.last_port⟩
        match prefs with
        | some p =>
          if p ≠ [] then  -- `if prefs:` truthiness at app.py line 226
            if p.lookup "listen_port" = some file_port then
              (⟨qb1, some file_port⟩, t1)  -- app.py line 231
            else
              let (h2, t2) := update_port h1 file upLoginResp setResp
              (h2, t1 ++ t2)
          else
            let (h2, t2) := update_port h1 file upLoginResp setResp
            (h2, t1 ++ t2)
        | none =>
          let (h2, t2) := update_port h1 file upLoginResp setResp
          (h2, t1 ++ t2)

/-- One iteration of the periodic health check in `main`
(app.py lines 255-266): probe `get_preferences`; on a `None` result
reset `logged_in` and attempt a fresh login. -/
def health_tick (s : QBState) (gpLoginResp : HttpResp String)
    (gpResp : HttpResp Prefs) (reLoginResp : HttpResp String) :
    QBState × List ApiCall :=
  let (prefs, s1, t1) := QBittorrentAPI.get_preferences s gpLoginResp gpResp
  match prefs with
  | none =>
    let s2 : QBState := { s1 with logged_in := false }
    let (_, s3, t2) := QBittorrentAPI.login s2 reLoginResp
    (s3, t1 ++ t2)
  | some _ => (s1, t1)

/-- Whether an API call is a `setPreferences` write. -/
def ApiCall.isSetPrefs : ApiCall → Bool
  | .setPrefsCall _ => true
  | _ => false

/-- The `setPreferences` writes of a trace. -/
def setCalls (t : List ApiCall) : List ApiCall := t.filter ApiCall.isSetPrefs

/-- A login response that does not meet the success condition of
`QBittorrentAPI.login` (status 200 with body exactly "Ok."). -/
def loginFailResp (r : HttpResp String) : Prop :=
  ∀ status body, r = some (status, body) → ¬(status = 200 ∧ body = "Ok.")

/-- Sanity checks that the CPython `int(str)` model accepts and rejects
the expected sample inputs. -/
theorem pyInt_samples :
    pyInt "12345" = some 12345 ∧ pyInt "-7" = some (-7) ∧
    pyInt "1_000" = some 1000 ∧ pyInt "abc" = none ∧ pyInt "1_" = none := by
  decide

/-- Sanity checks for the `str.strip()` model. -/
theorem pyStrip_samples :
    pyStrip "  \n" = "" ∧ pyStrip "  56789 " = "56789" := by
  decide

/-- Claim C1: in a reconciliation invocation (`update_port`) where the
file's content is empty after stripping whitespace and `last_port`
currently holds `some p`, no `setPreferences` call is made and
`last_port` still holds `p` afterwards. -/
theorem update_port_empty_file_keeps_port (h : HandlerState) (content : String)
    (p : Int) (loginResp : HttpResp String) (setResp : Option Nat)
    (hempty : pyStrip content = "") (hprev : h.last_port = some p) :
    (update_port h (some content) loginResp setResp).1.last_port = some p ∧
    setCalls (update_port h (some content) loginResp setResp).2 = [] := by
  simp [update_port, hempty, hprev, setCalls]

theorem update_port_empty_file_keeps_port_witness :
    pyStrip " \n" = "" ∧
    (update_port ⟨⟨"http://localhost:8080", "admin", "adminadmin", false, true⟩, some 9999⟩
        (some " \n") none none).1.last_port = some 9999 ∧
    setCalls (update_port ⟨⟨"http://localhost:8080", "admin", "adminadmin", false, true⟩, some 9999⟩
        (some " \n") none none).2 = [] :=
  ⟨by decide, update_port_empty_file_keeps_port _ _ 9999 none none (by decide) rfl⟩

/-- Claim C7: with authentication enabled, `login` succeeds if and only
if the HTTP exchange completed with status 200 and body exactly "Ok.". -/
theorem login_success_iff_200_ok (s : QBState) (r : HttpResp String)
    (hauth : s.disable_auth = false) :
    (QBittorrentAPI.login s r).1 = true ↔ r = some (200, "Ok.") := by
  cases r with
  | none => simp [QBittorrentAPI.login, hauth]
  | some sb =>
    obtain ⟨status, body⟩ := sb
    by_cases hc : status = 200 ∧ body = "Ok."
    · obtain ⟨h1, h2⟩ := hc
      subst h1; subst h2
      simp [QBittorrentAPI.login, hauth]
    · simp [QBittorrentAPI.login, hauth, hc]

theorem login_success_iff_200_ok_witness :
    (QBittorrentAPI.login ⟨"h", "u", "p", false, false⟩ (some (200, "Ok."))).1 = true :=
  (login_success_iff_200_ok _ _ rfl).mpr rfl

/-- Claim C8: in the authenticated state `get_preferences` is total (no
exception escapes): on status 200 it returns the parsed key/value
structure, and on a network error or any other status it returns
`none`. -/
theorem get_preferences_authenticated_result (s : QBState)
    (loginResp : HttpResp String) (gr : HttpResp Prefs)
    (hlog : s.logged_in = true) :
    (∀ p, gr = some (200, p) →
      (QBittorrentAPI.get_preferences s loginResp gr).1 = some p) ∧
    (gr = none → (QBittorrentAPI.get_preferences s loginResp gr).1 = none) ∧
    (∀ status p, gr = some (status, p) → status ≠ 200 →
      (QBittorrentAPI.get_preferences s loginResp gr).1 = none) := by
  refine ⟨?_, ?_, ?_⟩
  · intro p hgr
    subst hgr
    simp [QBittorrentAPI.get_preferences, QBittorrentAPI.prefs_request, hlog]
  · intro hgr
    subst hgr
    simp [QBittorrentAPI.get_preferences, QBittorrentAPI.prefs_request, hlog]
  · intro status p hgr hne
    subst hgr
    simp [QBittorrentAPI.get_preferences, QBittorrentAPI.prefs_request, hlog, hne]

theorem get_preferences_authenticated_result_witness :
    (QBittorrentAPI.get_preferences ⟨"h", "u", "p", false, true⟩ none
        (some (200, [("listen_port", 1)]))).1 = some [("listen_port", 1)] :=
  (get_preferences_authenticated_result _ none _ rfl).1 _ rfl

/-- Claim C9: in the authenticated state `set_port port` issues exactly
one `setPreferences` request whose payload is the JSON object with the
three fields `listen_port = port`, `upnp = false`, `random_port = false`
(and nothing else), and it succeeds if and only if the HTTP status is
200 — the response body is never inspected. -/
theorem set_port_authenticated_payload (s : QBState) (port : Int)
    (loginResp : HttpResp String) (sr : Option Nat)
    (hlog : s.logged_in = true) :
    (QBittorrentAPI.set_port s port loginResp sr).2.2 =
      [.setPrefsCall [("listen_port", .num port), ("upnp", .bool false),
        ("random_port", .bool false)]] ∧
    ((QBittorrentAPI.set_port s port loginResp sr).1 = true ↔ sr = some 200) := by
  cases sr with
  | none =>
    simp [QBittorrentAPI.set_port, QBittorrentAPI.set_port_request,
      QBittorrentAPI.set_port_payload, hlog]
  | some status =>
    simp [QBittorrentAPI.set_port, QBittorrentAPI.set_port_request,
      QBittorrentAPI.set_port_payload, hlog]

theorem set_port_authenticated_payload_witness :
    (QBittorrentAPI.set_port ⟨"h", "u", "p", false, true⟩ 6881 none (some 200)).2.2 =
      [.setPrefsCall [("listen_port", .num 6881), ("upnp", .bool false),
        ("random_port", .bool false)]] ∧
    (QBittorrentAPI.set_port ⟨"h", "u", "p", false, true⟩ 6881 none (some 200)).1 = true :=
  ⟨(set_port_authenticated_payload _ 6881 none (some 200) rfl).1,
   (set_port_authenticated_payload _ 6881 none (some 200) rfl).2.mpr rfl⟩

/-- The empty string is not a valid Python integer literal. -/
theorem pyInt_empty : pyInt "" = none := rfl

/-- Claim C2: a reconciliation invocation whose file parses to the
integer already held in `last_port` makes no `setPreferences` call and
changes nothing; consequently applying the same port value twice in a
row issues exactly one `setPreferences` call, the second invocation
being suppressed. -/
theorem update_port_dedup_idempotent (h : HandlerState) (content : String)
    (p : Int) (lr lr2 : HttpResp String) (sr sr2 : Option Nat)
    (hparse : pyInt (pyStrip content) = some p) :
    (h.last_port = some p → update_port h (some content) lr sr = (h, [])) ∧
    (h.last_port ≠ some p → h.qb.logged_in = true → sr = some 200 →
      setCalls (update_port h (some content) lr sr).2 =
        [.setPrefsCall (QBittorrentAPI.set_port_payload p)] ∧
      (update_port h (some content) lr sr).1.last_port = some p ∧
      update_port (update_port h (some content) lr sr).1 (some content) lr2 sr2 =
        ((update_port h (some content) lr sr).1, [])) := by
  have hne : ¬ pyStrip content = "" := by
    intro he
    rw [he, pyInt_empty] at hparse
    exact Option.noConfusion hparse
  constructor
  · intro hlast
    simp [update_port, hne, hparse, hlast]
  · intro hdiff hlog hsr
    subst hsr
    simp [update_port, hne, hparse, hdiff, QBittorrentAPI.set_port,
      QBittorrentAPI.set_port_request, hlog, setCalls, ApiCall.isSetPrefs]

theorem update_port_dedup_idempotent_witness :
    pyInt (pyStrip "12345") = some 12345 ∧
    ((⟨⟨"h", "u", "p", false, true⟩, none⟩ : HandlerState).last_port ≠ some 12345 ∧
      (⟨⟨"h", "u", "p", false, true⟩, none⟩ : HandlerState).qb.logged_in = true) ∧
    (setCalls (update_port ⟨⟨"h", "u", "p", false, true⟩, none⟩ (some "12345") none (some 200)).2 =
        [.setPrefsCall (QBittorrentAPI.set_port_payload 12345)] ∧
      (update_port ⟨⟨"h", "u", "p", false, true⟩, none⟩ (some "12345") none (some 200)).1.last_port =
        some 12345 ∧
      update_port (update_port ⟨⟨"h", "u", "p", false, true⟩, none⟩ (some "12345") none
          (some 200)).1 (some "12345") none none =
        ((update_port ⟨⟨"h", "u", "p", false, true⟩, none⟩ (some "12345") none (some 200)).1, [])) :=
  ⟨by decide, ⟨by decide, rfl⟩,
   (update_port_dedup_idempotent _ "12345" 12345 none none (some 200) none
      (by decide)).2 (by decide) rfl rfl⟩

/-- Claim C5: when a new port is pushed and the `set_port` call fails,
`last_port` is left unchanged; a later invocation with the same file
content is therefore not suppressed by the dedup check — its call trace
is exactly the (never empty) trace of a fresh `set_port` attempt. -/
theorem update_port_failure_leaves_last_port (h : HandlerState)
    (content : String) (p : Int) (lr : HttpResp String) (sr : Option Nat)
    (hparse : pyInt (pyStrip content) = some p)
    (hdiff : h.last_port ≠ some p)
    (hfail : (QBittorrentAPI.set_port h.qb p lr sr).1 = false) :
    (update_port h (some content) lr sr).1.last_port = h.last_port ∧
    (∀ lr2 sr2,
      (update_port (update_port h (some content) lr sr).1 (some content) lr2 sr2).2 =
        (QBittorrentAPI.set_port (update_port h (some content) lr sr).1.qb p lr2 sr2).2.2) ∧
    (∀ q lr3 sr3, (QBittorrentAPI.set_port q p lr3 sr3).2.2 ≠ []) := by
  have hne : ¬ pyStrip content = "" := by
    intro he
    rw [he, pyInt_empty] at hparse
    exact Option.noConfusion hparse
  have hup : update_port h (some content) lr sr =
      (⟨(QBittorrentAPI.set_port h.qb p lr sr).2.1, h.last_port⟩,
        (QBittorrentAPI.set_port h.qb p lr sr).2.2) := by
    simp [update_port, hne, hparse, hdiff, hfail]
  refine ⟨by rw [hup], ?_, ?_⟩
  · intro lr2 sr2
    rw [hup]
    rcases hsp : QBittorrentAPI.set_port (QBittorrentAPI.set_port h.qb p lr sr).2.1 p lr2 sr2
      with ⟨ok2, qb2, t2⟩
    cases ok2 <;> simp [update_port, hne, hparse, hdiff, hsp]
  · intro q lr3 sr3
    rcases hq : q.logged_in with _ | _ <;>
      rcases ha : q.disable_auth with _ | _ <;>
      rcases lr3 with _ | ⟨st, bd⟩ <;>
      rcases sr3 with _ | status <;>
      simp [QBittorrentAPI.set_port, QBittorrentAPI.set_port_request,
        QBittorrentAPI.login, hq, ha] <;>
      split <;> simp

theorem update_port_failure_leaves_last_port_witness :
    pyInt (pyStrip "7777") = some 7777 ∧
    ((⟨⟨"h", "u", "p", false, true⟩, some 9999⟩ : HandlerState).last_port ≠ some 7777) ∧
    (QBittorrentAPI.set_port (⟨"h", "u", "p", false, true⟩ : QBState) 7777 none none).1 = false ∧
    ((update_port ⟨⟨"h", "u", "p", false, true⟩, some 9999⟩ (some "7777") none none).1.last_port =
        some 9999 ∧
      (∀ lr2 sr2,
        (update_port (update_port ⟨⟨"h", "u", "p", false, true⟩, some 9999⟩ (some "7777") none
            none).1 (some "7777") lr2 sr2).2 =
          (QBittorrentAPI.set_port (update_port ⟨⟨"h", "u", "p", false, true⟩, some 9999⟩
              (some "7777") none none).1.qb 7777 lr2 sr2).2.2) ∧
      (∀ q lr3 sr3, (QBittorrentAPI.set_port q 7777 lr3 sr3).2.2 ≠ [])) :=
  ⟨by decide, by decide, rfl,
   update_port_failure_leaves_last_port _ "7777" 7777 none none (by decide) (by decide) rfl⟩

/-- With authentication enabled, a login attempt whose response does not
meet the success condition returns failure and leaves the state as it
was (app.py lines 49-55: the failure branches never assign
`logged_in`). -/
theorem login_fail_eq (s : QBState) (r : HttpResp String)
    (hauth : s.disable_auth = false) (hfail : loginFailResp r) :
    QBittorrentAPI.login s r = (false, s, [.loginCall]) := by
  cases r with
  | none => simp [QBittorrentAPI.login, hauth]
  | some sb =>
    obtain ⟨status, body⟩ := sb
    simp [QBittorrentAPI.login, hauth, hfail status body rfl]

/-- The `login` operation never changes `disable_auth` (it is only set in
`__init__`). -/
theorem login_disable_auth (s : QBState) (r : HttpResp String) :
    (QBittorrentAPI.login s r).2.1.disable_auth = s.disable_auth := by
  unfold QBittorrentAPI.login
  split
  · rfl
  · cases r with
    | none => rfl
    | some sb =>
      obtain ⟨st, bd⟩ := sb
      dsimp only
      split <;> rfl

/-- The GET of `get_preferences` never changes `disable_auth`. -/
theorem prefs_request_disable_auth (s : QBState) (gr : HttpResp Prefs) :
    (QBittorrentAPI.prefs_request s gr).2.1.disable_auth = s.disable_auth := by
  unfold QBittorrentAPI.prefs_request
  cases gr with
  | none => rfl
  | some sb =>
    obtain ⟨st, p⟩ := sb
    dsimp only
    split <;> rfl

/-- The `get_preferences` operation never changes `disable_auth`. -/
theorem get_preferences_disable_auth (s : QBState) (lr : HttpResp String)
    (gr : HttpResp Prefs) :
    (QBittorrentAPI.get_preferences s lr gr).2.1.disable_auth = s.disable_auth := by
  unfold QBittorrentAPI.get_preferences
  split
  · exact prefs_request_disable_auth s gr
  · rcases hlg : QBittorrentAPI.login s lr with ⟨ok, s1, t1⟩
    have h1 : s1.disable_auth = s.disable_auth := by
      have h2 := login_disable_auth s lr
      rw [hlg] at h2
      exact h2
    dsimp only
    cases ok with
    | false => exact h1
    | true =>
      rcases hpr : QBittorrentAPI.prefs_request s1 gr with ⟨r2, s2, t2⟩
      have h3 : s2.disable_auth = s1.disable_auth := by
        have h4 := prefs_request_disable_auth s1 gr
        rw [hpr] at h4
        exact h4
      simp [h3, h1]

/-- Claim C6: with authentication enabled, whenever the program calls
`login` and the attempt fails, the session ends up unauthenticated.
Every `login` call the program makes is covered: the direct call (made
from a state that is already unauthenticated: the startup call on the
fresh client, and the guarded calls inside `get_preferences` /
`set_port`), and the health-check re-login, which resets `logged_in`
before dialing. -/
theorem login_failure_stays_unauthenticated
    (s1 s2 s3 s4 : QBState) (r1 lr2 lr3 r4 glr4 : HttpResp String)
    (gr2 gr4 : HttpResp Prefs) (port : Int) (sr3 : Option Nat)
    (ha1 : s1.disable_auth = false) (hu1 : s1.logged_in = false)
    (hf1 : loginFailResp r1)
    (ha2 : s2.disable_auth = false) (hu2 : s2.logged_in = false)
    (hf2 : loginFailResp lr2)
    (ha3 : s3.disable_auth = false) (hu3 : s3.logged_in = false)
    (hf3 : loginFailResp lr3)
    (ha4 : s4.disable_auth = false) (hf4 : loginFailResp r4)
    (hg4 : (QBittorrentAPI.get_preferences s4 glr4 gr4).1 = none) :
    ((QBittorrentAPI.login s1 r1).1 = false ∧
      (QBittorrentAPI.login s1 r1).2.1.logged_in = false) ∧
    ((QBittorrentAPI.get_preferences s2 lr2 gr2).1 = none ∧
      (QBittorrentAPI.get_preferences s2 lr2 gr2).2.1.logged_in = false) ∧
    ((QBittorrentAPI.set_port s3 port lr3 sr3).1 = false ∧
      (QBittorrentAPI.set_port s3 port lr3 sr3).2.1.logged_in = false) ∧
    (health_tick s4 glr4 gr4 r4).1.logged_in = false := by
  refine ⟨?_, ?_, ?_, ?_⟩
  · rw [login_fail_eq s1 r1 ha1 hf1]
    exact ⟨rfl, hu1⟩
  · simp [QBittorrentAPI.get_preferences, hu2, login_fail_eq s2 lr2 ha2 hf2]
  · simp [QBittorrentAPI.set_port, hu3, login_fail_eq s3 lr3 ha3 hf3]
  · have hda : (QBittorrentAPI.get_preferences s4 glr4 gr4).2.1.disable_auth = false := by
      rw [get_preferences_disable_auth]; exact ha4
    rcases hgp : QBittorrentAPI.get_preferences s4 glr4 gr4 with ⟨prefs, s1', t1⟩
    rw [hgp] at hg4 hda
    subst hg4
    have : QBittorrentAPI.login { s1' with logged_in := false } r4 =
        (false, { s1' with logged_in := false }, [.loginCall]) :=
      login_fail_eq _ r4 hda hf4
    simp [health_tick, hgp, this]

theorem login_failure_stays_unauthenticated_witness :
    ((QBittorrentAPI.login ⟨"h", "u", "p", false, false⟩ none).1 = false ∧
      (QBittorrentAPI.login ⟨"h", "u", "p", false, false⟩ none).2.1.logged_in = false) ∧
    ((QBittorrentAPI.get_preferences ⟨"h", "u", "p", false, false⟩ none none).1 = none ∧
      (QBittorrentAPI.get_preferences ⟨"h", "u", "p", false, false⟩
          none none).2.1.logged_in = false) ∧
    ((QBittorrentAPI.set_port ⟨"h", "u", "p", false, false⟩ 1 none none).1 = false ∧
      (QBittorrentAPI.set_port ⟨"h", "u", "p", false, false⟩ 1 none none).2.1.logged_in = false) ∧
    (health_tick ⟨"h", "u", "p", false, true⟩ none none none).1.logged_in = false :=
  login_failure_stays_unauthenticated
    ⟨"h", "u", "p", false, false⟩ ⟨"h", "u", "p", false, false⟩
    ⟨"h", "u", "p", false, false⟩ ⟨"h", "u", "p", false, true⟩
    none none none none none none none 1 none
    rfl rfl (fun _ _ hx => Option.noConfusion hx)
    rfl rfl (fun _ _ hx => Option.noConfusion hx)
    rfl rfl (fun _ _ hx => Option.noConfusion hx)
    rfl (fun _ _ hx => Option.noConfusion hx) rfl

/-- Once `last_port` holds a value, a reconciliation invocation leaves
it holding some value: every branch of `update_port` either keeps
`last_port` or overwrites it with the freshly parsed integer. -/
theorem update_port_keeps_some (h : HandlerState) (file : Option String)
    (lr : HttpResp String) (sr : Option Nat) (p : Int)
    (hp : h.last_port = some p) :
    ∃ m, (update_port h file lr sr).1.last_port = some m := by
  cases file with
  | none => exact ⟨p, hp⟩
  | some content =>
    by_cases he : pyStrip content = ""
    · exact ⟨p, by simp [update_port, he, hp]⟩
    · cases hpi : pyInt (pyStrip content) with
      | none => exact ⟨p, by simp [update_port, he, hpi, hp]⟩
      | some port =>
        by_cases hl : h.last_port = some port
        · exact ⟨port, by simp [update_port, he, hpi, hl]⟩
        · rcases hsp : QBittorrentAPI.set_port h.qb port lr sr with ⟨ok, qb1, t⟩
          cases ok with
          | false =>
            refine ⟨p, ?_⟩
            simp [update_port, he, hpi, hl, hsp]
            exact hp
          | true => exact ⟨port, by simp [update_port, he, hpi, hl, hsp]⟩

/-- Claim C10: once `last_port` holds an integer it is never returned to
the empty state: both reconciliation (`update_port`) and the startup
check (`initial_check`) either leave it unchanged or replace it with
another integer. -/
theorem last_port_never_cleared (h h2 : HandlerState) (p q : Int)
    (file file2 : Option String) (lr glr ulr : HttpResp String)
    (sr sr2 : Option Nat) (gr : HttpResp Prefs)
    (hp : h.last_port = some p) (hq : h2.last_port = some q) :
    (∃ m, (update_port h file lr sr).1.last_port = some m) ∧
    (∃ n, (initial_check h2 file2 glr gr ulr sr2).1.last_port = some n) := by
  refine ⟨update_port_keeps_some h file lr sr p hp, ?_⟩
  cases file2 with
  | none => exact ⟨q, hq⟩
  | some content =>
    by_cases he : pyStrip content = ""
    · exact ⟨q, by simp [initial_check, he, hq]⟩
    · cases hpi : pyInt (pyStrip content) with
      | none => exact ⟨q, by simp [initial_check, he, hpi, hq]⟩
      | some fp =>
        rcases hgp : QBittorrentAPI.get_preferences h2.qb glr gr with ⟨prefs, qb1, t1⟩
        have hkeep : (⟨qb1, h2.last_port⟩ : HandlerState).last_port = some q := hq
        rcases hup : update_port ⟨qb1, h2.last_port⟩ (some content) ulr sr2 with ⟨h3, t2⟩
        obtain ⟨m, hm⟩ :=
          update_port_keeps_some ⟨qb1, h2.last_port⟩ (some content) ulr sr2 q hkeep
        rw [hup] at hm
        have hm2 : h3.last_port = some m := hm
        cases prefs with
        | none =>
          refine ⟨m, ?_⟩
          simp [initial_check, he, hpi, hgp, hup]
          exact hm2
        | some pd =>
          by_cases hnil : pd = []
          · refine ⟨m, ?_⟩
            simp [initial_check, he, hpi, hgp, hnil, hup]
            exact hm2
          · by_cases hlk : pd.lookup "listen_port" = some fp
            · exact ⟨fp, by simp [initial_check, he, hpi, hgp, hnil, hlk]⟩
            · refine ⟨m, ?_⟩
              simp [initial_check, he, hpi, hgp, hnil, hlk, hup]
              exact hm2

theorem last_port_never_cleared_witness :
    ((⟨⟨"h", "u", "p", false, true⟩, some 9999⟩ : HandlerState).last_port = some 9999) ∧
    ((∃ m, (update_port ⟨⟨"h", "u", "p", false, true⟩, some 9999⟩ (some "") none
        none).1.last_port = some m) ∧
     (∃ n, (initial_check ⟨⟨"h", "u", "p", false, true⟩, some 9999⟩ (some "abc") none none none
        none).1.last_port = some n)) :=
  ⟨rfl, last_port_never_cleared _ _ 9999 9999 (some "") (some "abc") none none none none
    none none rfl rfl⟩

/-- A reconciliation invocation on an authenticated client, with a file
parsing to a port different from `last_port`, issues exactly one
`setPreferences` call (whether or not that call succeeds). -/
theorem update_port_one_push (h : HandlerState) (content : String) (port : Int)
    (lr : HttpResp String) (sr : Option Nat)
    (hparse : pyInt (pyStrip content) = some port)
    (hdiff : h.last_port ≠ some port) (hlog : h.qb.logged_in = true) :
    setCalls (update_port h (some content) lr sr).2 =
      [.setPrefsCall (QBittorrentAPI.set_port_payload port)] := by
  have hne : ¬ pyStrip content = "" := by
    intro he
    rw [he, pyInt_empty] at hparse
    exact Option.noConfusion hparse
  cases sr with
  | none =>
    simp [update_port, hne, hparse, hdiff, QBittorrentAPI.set_port,
      QBittorrentAPI.set_port_request, hlog, setCalls, ApiCall.isSetPrefs]
  | some status =>
    cases hb : status == 200 <;>
      simp [update_port, hne, hparse, hdiff, QBittorrentAPI.set_port,
        QBittorrentAPI.set_port_request, hlog, hb, setCalls, ApiCall.isSetPrefs]

/-- Claim C4: startup reconciliation.  If the parsed file port equals
the `listen_port` reported by a readable, non-empty preferences object,
no `setPreferences` call is made and `last_port` is recorded as that
value; if the report differs or the preferences could not be read (or
were empty), the full reconciliation step runs and issues exactly one
`setPreferences` call carrying the file's value.  Both invocations are
taken after the successful startup login (`logged_in = true`) on a
fresh handler (`last_port = none`). -/
theorem initial_check_startup_behavior
    (h h2 : HandlerState) (content : String) (file_port : Int) (prefs : Prefs)
    (glr glr2 ulr ulr2 : HttpResp String) (sr sr2 : Option Nat)
    (gr2 : HttpResp Prefs)
    (hparse : pyInt (pyStrip content) = some file_port)
    (hlog : h.qb.logged_in = true) (hlast : h.last_port = none)
    (hpne : prefs ≠ [])
    (hmatch : prefs.lookup "listen_port" = some file_port)
    (hlog2 : h2.qb.logged_in = true) (hlast2 : h2.last_port = none)
    (hnomatch : ∀ p, gr2 = some (200, p) → p ≠ [] →
      p.lookup "listen_port" ≠ some file_port) :
    ((initial_check h (some content) glr (some (200, prefs)) ulr
        sr).1.last_port = some file_port ∧
      setCalls (initial_check h (some content) glr (some (200, prefs)) ulr
        sr).2 = []) ∧
    setCalls (initial_check h2 (some content) glr2 gr2 ulr2 sr2).2 =
      [.setPrefsCall (QBittorrentAPI.set_port_payload file_port)] := by
  have hne : ¬ pyStrip content = "" := by
    intro he
    rw [he, pyInt_empty] at hparse
    exact Option.noConfusion hparse
  constructor
  · constructor
    · simp [initial_check, hne, hparse, QBittorrentAPI.get_preferences,
        QBittorrentAPI.prefs_request, hlog, hpne, hmatch]
    · simp [initial_check, hne, hparse, QBittorrentAPI.get_preferences,
        QBittorrentAPI.prefs_request, hlog, hpne, hmatch, setCalls,
        ApiCall.isSetPrefs]
  · have hdiff : (⟨h2.qb, h2.last_port⟩ : HandlerState).last_port ≠ some file_port := by
      rw [hlast2]
      exact fun hx => Option.noConfusion hx
    have hpush := update_port_one_push ⟨h2.qb, h2.last_port⟩ content file_port ulr2 sr2
      hparse hdiff hlog2
    rcases hup : update_port ⟨h2.qb, h2.last_port⟩ (some content) ulr2 sr2 with ⟨h3, t2⟩
    rw [hup] at hpush
    have hpush2 : setCalls t2 = [.setPrefsCall (QBittorrentAPI.set_port_payload file_port)] :=
      hpush
    cases gr2 with
    | none =>
      simp [initial_check, hne, hparse, QBittorrentAPI.get_preferences,
        QBittorrentAPI.prefs_request, hlog2, hup, setCalls, ApiCall.isSetPrefs] at hpush2 ⊢
      exact hpush2
    | some sb =>
      obtain ⟨status, pd⟩ := sb
      by_cases hst : status = 200
      · subst hst
        by_cases hnil : pd = []
        · subst hnil
          simp [initial_check, hne, hparse, QBittorrentAPI.get_preferences,
            QBittorrentAPI.prefs_request, hlog2, hup, setCalls, ApiCall.isSetPrefs] at hpush2 ⊢
          exact hpush2
        · have hlk : pd.lookup "listen_port" ≠ some file_port := hnomatch pd rfl hnil
          simp [initial_check, hne, hparse, QBittorrentAPI.get_preferences,
            QBittorrentAPI.prefs_request, hlog2, hnil, hlk, hup, setCalls,
            ApiCall.isSetPrefs] at hpush2 ⊢
          exact hpush2
      · simp [initial_check, hne, hparse, QBittorrentAPI.get_preferences,
          QBittorrentAPI.prefs_request, hlog2, hst, hup, setCalls,
          ApiCall.isSetPrefs] at hpush2 ⊢
        exact hpush2

theorem initial_check_startup_behavior_witness :
    pyInt (pyStrip "56789") = some 56789 ∧
    (((initial_check ⟨⟨"h", "u", "p", false, true⟩, none⟩ (some "56789") none
        (some (200, [("listen_port", 56789)])) none none).1.last_port = some 56789 ∧
      setCalls (initial_check ⟨⟨"h", "u", "p", false, true⟩, none⟩ (some "56789") none
        (some (200, [("listen_port", 56789)])) none none).2 = []) ∧
     setCalls (initial_check ⟨⟨"h", "u", "p", false, true⟩, none⟩ (some "56789") none none
        none none).2 = [.setPrefsCall (QBittorrentAPI.set_port_payload 56789)]) :=
  ⟨by decide,
   initial_check_startup_behavior ⟨⟨"h", "u", "p", false, true⟩, none⟩
     ⟨⟨"h", "u", "p", false, true⟩, none⟩ "56789" 56789 [("listen_port", 56789)]
     none none none none none none none (by decide) rfl rfl
     (fun hx => List.noConfusion hx) (by decide) rfl rfl
     (fun p hp => Option.noConfusion hp)⟩

/-- Claim C3, counterexample: the startup check of `main` (app.py line
231) assigns `last_port := file_port` without any `setPreferences`
call when the service already reports the file's port — so
`last_port` can transition from `None` to a value with no set-port call
having returned success.  Concretely: file "56789", service reporting
`listen_port = 56789`. -/
theorem initial_check_records_without_push :
    (initial_check ⟨⟨"http://localhost:8080", "admin", "adminadmin", false, true⟩, none⟩
        (some "56789") none (some (200, [("listen_port", 56789)])) none
        none).1.last_port = some 56789 ∧
    setCalls (initial_check ⟨⟨"http://localhost:8080", "admin", "adminadmin", false, true⟩,
        none⟩ (some "56789") none (some (200, [("listen_port", 56789)])) none none).2 = [] := by
  decide

/-- A successful `set_port` call issued its `setPreferences` request
with the three-field payload and received status 200. -/
theorem set_port_ok_mem (s : QBState) (port : Int) (lr : HttpResp String)
    (sr : Option Nat) (hok : (QBittorrentAPI.set_port s port lr sr).1 = true) :
    ApiCall.setPrefsCall (QBittorrentAPI.set_port_payload port) ∈
      (QBittorrentAPI.set_port s port lr sr).2.2 ∧ sr = some 200 := by
  cases hl : s.logged_in with
  | true =>
    cases sr with
    | none => simp [QBittorrentAPI.set_port, QBittorrentAPI.set_port_request, hl] at hok
    | some status =>
      simp [QBittorrentAPI.set_port, QBittorrentAPI.set_port_request, hl] at hok ⊢
      exact hok
  | false =>
    rcases hlg : QBittorrentAPI.login s lr with ⟨ok1, s1, t1⟩
    cases ok1 with
    | false => simp [QBittorrentAPI.set_port, hl, hlg] at hok
    | true =>
      cases sr with
      | none =>
        simp [QBittorrentAPI.set_port, QBittorrentAPI.set_port_request, hl, hlg] at hok
      | some status =>
        simp [QBittorrentAPI.set_port, QBittorrentAPI.set_port_request, hl, hlg] at hok ⊢
        exact hok

/-- If a reconciliation invocation changed `last_port`, the new value is
the parsed port, its push was issued, and that push returned success
(status 200). -/
theorem update_port_change (h : HandlerState) (file : Option String)
    (lr : HttpResp String) (sr : Option Nat)
    (hch : (update_port h file lr sr).1.last_port ≠ h.last_port) :
    ∃ p, (update_port h file lr sr).1.last_port = some p ∧
      ApiCall.setPrefsCall (QBittorrentAPI.set_port_payload p) ∈
        (update_port h file lr sr).2 ∧
      sr = some 200 := by
  cases file with
  | none => exact absurd rfl hch
  | some content =>
    by_cases he : pyStrip content = ""
    · simp [update_port, he] at hch
    · cases hpi : pyInt (pyStrip content) with
      | none => simp [update_port, he, hpi] at hch
      | some port =>
        by_cases hl : h.last_port = some port
        · simp [update_port, he, hpi, hl] at hch
        · rcases hsp : QBittorrentAPI.set_port h.qb port lr sr with ⟨ok, qb1, t⟩
          cases ok with
          | false => simp [update_port, he, hpi, hl, hsp] at hch
          | true =>
            have hok : (QBittorrentAPI.set_port h.qb port lr sr).1 = true := by
              rw [hsp]
            obtain ⟨hmem, hst⟩ := set_port_ok_mem h.qb port lr sr hok
            rw [hsp] at hmem
            refine ⟨port, by simp [update_port, he, hpi, hl, hsp], ?_, hst⟩
            simp [update_port, he, hpi, hl, hsp]
            exact hmem

/-- The `login` operation issues no `setPreferences` request. -/
theorem setCalls_login (s : QBState) (r : HttpResp String) :
    setCalls (QBittorrentAPI.login s r).2.2 = [] := by
  unfold QBittorrentAPI.login
  split
  · rfl
  · cases r with
    | none => rfl
    | some sb =>
      obtain ⟨st, bd⟩ := sb
      dsimp only
      split <;> rfl

/-- The GET of `get_preferences` issues no `setPreferences` request. -/
theorem setCalls_prefs_request (s : QBState) (gr : HttpResp Prefs) :
    setCalls (QBittorrentAPI.prefs_request s gr).2.2 = [] := by
  unfold QBittorrentAPI.prefs_request
  cases gr with
  | none => rfl
  | some sb =>
    obtain ⟨st, p⟩ := sb
    dsimp only
    split <;> rfl

/-- The `get_preferences` operation issues no `setPreferences` request. -/
theorem setCalls_get_preferences (s : QBState) (lr : HttpResp String)
    (gr : HttpResp Prefs) :
    setCalls (QBittorrentAPI.get_preferences s lr gr).2.2 = [] := by
  unfold QBittorrentAPI.get_preferences
  split
  · exact setCalls_prefs_request s gr
  · rcases hlg : QBittorrentAPI.login s lr with ⟨ok, s1, t1⟩
    have h1 := setCalls_login s lr
    rw [hlg] at h1
    dsimp only
    cases ok with
    | false => exact h1
    | true =>
      rcases hpr : QBittorrentAPI.prefs_request s1 gr with ⟨r2, s2, t2⟩
      have h2 := setCalls_prefs_request s1 gr
      rw [hpr] at h2
      show setCalls (t1 ++ t2) = []
      unfold setCalls at h1 h2 ⊢
      rw [List.filter_append, h1, h2]
      rfl

/-- A `some` result of `get_preferences` can only come from a completed
GET with status 200 returning that body. -/
theorem get_preferences_some (s : QBState) (lr : HttpResp String)
    (gr : HttpResp Prefs) (pd : Prefs)
    (hr : (QBittorrentAPI.get_preferences s lr gr).1 = some pd) :
    gr = some (200, pd) := by
  have hpr : ∀ s' : QBState, (QBittorrentAPI.prefs_request s' gr).1 = some pd →
      gr = some (200, pd) := by
    intro s' hx
    cases gr with
    | none => simp [QBittorrentAPI.prefs_request] at hx
    | some sb =>
      obtain ⟨st, p⟩ := sb
      by_cases hst : st = 200
      · subst hst
        simp [QBittorrentAPI.prefs_request] at hx
        rw [hx]
      · simp [QBittorrentAPI.prefs_request, hst] at hx
  unfold QBittorrentAPI.get_preferences at hr
  split at hr
  · exact hpr s hr
  · rcases hlg : QBittorrentAPI.login s lr with ⟨ok, s1, t1⟩
    rw [hlg] at hr
    dsimp only at hr
    cases ok with
    | false => exact Option.noConfusion hr
    | true =>
      rcases hpq : QBittorrentAPI.prefs_request s1 gr with ⟨r2, s2, t2⟩
      rw [hpq] at hr
      dsimp only at hr
      simp at hr
      apply hpr s1
      rw [hpq, hr]

/-- If the startup check changed `last_port`, then either the full
reconciliation step pushed the new value with a successful
`setPreferences` call, or the service's readable preferences already
reported that value as `listen_port` and no `setPreferences` call was
made. -/
theorem initial_check_change (h : HandlerState) (file : Option String)
    (glr ulr : HttpResp String) (gr : HttpResp Prefs) (sr2 : Option Nat)
    (hch : (initial_check h file glr gr ulr sr2).1.last_port ≠ h.last_port) :
    ∃ p, (initial_check h file glr gr ulr sr2).1.last_port = some p ∧
      ((ApiCall.setPrefsCall (QBittorrentAPI.set_port_payload p) ∈
          (initial_check h file glr gr ulr sr2).2 ∧ sr2 = some 200) ∨
       (∃ prefs, gr = some (200, prefs) ∧ prefs.lookup "listen_port" = some p ∧
         setCalls (initial_check h file glr gr ulr sr2).2 = [])) := by
  cases file with
  | none => exact absurd rfl hch
  | some content =>
    by_cases he : pyStrip content = ""
    · simp [initial_check, he] at hch
    · cases hpi : pyInt (pyStrip content) with
      | none => simp [initial_check, he, hpi] at hch
      | some fp =>
        rcases hgp : QBittorrentAPI.get_preferences h.qb glr gr with ⟨prefs, qb1, t1⟩
        rcases hup : update_port ⟨qb1, h.last_port⟩ (some content) ulr sr2 with ⟨h3, t2⟩
        have hub : h3.last_port ≠ h.last_port →
            ∃ p, h3.last_port = some p ∧
              ApiCall.setPrefsCall (QBittorrentAPI.set_port_payload p) ∈ t2 ∧
              sr2 = some 200 := by
          intro hne2
          have hx := update_port_change ⟨qb1, h.last_port⟩ (some content) ulr sr2
            (by rw [hup]; exact hne2)
          rw [hup] at hx
          exact hx
        cases prefs with
        | none =>
          have hch2 : h3.last_port ≠ h.last_port := by
            simpa [initial_check, he, hpi, hgp, hup] using hch
          obtain ⟨p, hp1, hp2, hp3⟩ := hub hch2
          refine ⟨p, ?_, Or.inl ⟨?_, hp3⟩⟩
          · simp [initial_check, he, hpi, hgp, hup]
            exact hp1
          · simp [initial_check, he, hpi, hgp, hup]
            exact Or.inr hp2
        | some pd =>
          by_cases hnil : pd = []
          · have hch2 : h3.last_port ≠ h.last_port := by
              simpa [initial_check, he, hpi, hgp, hnil, hup] using hch
            obtain ⟨p, hp1, hp2, hp3⟩ := hub hch2
            refine ⟨p, ?_, Or.inl ⟨?_, hp3⟩⟩
            · simp [initial_check, he, hpi, hgp, hnil, hup]
              exact hp1
            · simp [initial_check, he, hpi, hgp, hnil, hup]
              exact Or.inr hp2
          · by_cases hlk : pd.lookup "listen_port" = some fp
            · have hgr : gr = some (200, pd) := by
                apply get_preferences_some h.qb glr gr pd
                rw [hgp]
              have hsc := setCalls_get_preferences h.qb glr gr
              rw [hgp] at hsc
              refine ⟨fp, ?_, Or.inr ⟨pd, hgr, hlk, ?_⟩⟩
              · simp [initial_check, he, hpi, hgp, hnil, hlk]
              · simp [initial_check, he, hpi, hgp, hnil, hlk]
                exact hsc
            · have hch2 : h3.last_port ≠ h.last_port := by
                simpa [initial_check, he, hpi, hgp, hnil, hlk, hup] using hch
              obtain ⟨p, hp1, hp2, hp3⟩ := hub hch2
              refine ⟨p, ?_, Or.inl ⟨?_, hp3⟩⟩
              · simp [initial_check, he, hpi, hgp, hnil, hlk, hup]
                exact hp1
              · simp [initial_check, he, hpi, hgp, hnil, hlk, hup]
                exact Or.inr hp2

/-- Claim C3, amended: `last_port` starts empty at handler construction,
and any change of it by a reconciliation invocation happens only when a
`setPreferences` call carrying that value has just returned success
(status 200) — except in the startup check, where `last_port` may also
be recorded without a write when the service's readable preferences
already report the file's value as `listen_port`. -/
theorem last_port_update_discipline (qb : QBState) (h h2 : HandlerState)
    (file file2 : Option String) (lr glr ulr : HttpResp String)
    (sr sr2 : Option Nat) (gr : HttpResp Prefs)
    (hch1 : (update_port h file lr sr).1.last_port ≠ h.last_port)
    (hch2 : (initial_check h2 file2 glr gr ulr sr2).1.last_port ≠ h2.last_port) :
    (PortFileHandler.mk0 qb).last_port = none ∧
    (∃ p, (update_port h file lr sr).1.last_port = some p ∧
      ApiCall.setPrefsCall (QBittorrentAPI.set_port_payload p) ∈
        (update_port h file lr sr).2 ∧
      sr = some 200) ∧
    (∃ p, (initial_check h2 file2 glr gr ulr sr2).1.last_port = some p ∧
      ((ApiCall.setPrefsCall (QBittorrentAPI.set_port_payload p) ∈
          (initial_check h2 file2 glr gr ulr sr2).2 ∧ sr2 = some 200) ∨
       (∃ prefs, gr = some (200, prefs) ∧ prefs.lookup "listen_port" = some p ∧
         setCalls (initial_check h2 file2 glr gr ulr sr2).2 = []))) :=
  ⟨rfl, update_port_change h file lr sr hch1,
   initial_check_change h2 file2 glr ulr gr sr2 hch2⟩

theorem last_port_update_discipline_witness :
    (PortFileHandler.mk0 ⟨"h", "u", "p", false, true⟩).last_port = none ∧
    (∃ p, (update_port ⟨⟨"h", "u", "p", false, true⟩, none⟩ (some "7777") none
        (some 200)).1.last_port = some p ∧
      ApiCall.setPrefsCall (QBittorrentAPI.set_port_payload p) ∈
        (update_port ⟨⟨"h", "u", "p", false, true⟩, none⟩ (some "7777") none (some 200)).2 ∧
      some 200 = some 200) ∧
    (∃ p, (initial_check ⟨⟨"h", "u", "p", false, true⟩, none⟩ (some "4242") none
        (some (200, [("listen_port", 4242)])) none none).1.last_port = some p ∧
      ((ApiCall.setPrefsCall (QBittorrentAPI.set_port_payload p) ∈
          (initial_check ⟨⟨"h", "u", "p", false, true⟩, none⟩ (some "4242") none
            (some (200, [("listen_port", 4242)])) none none).2 ∧
        (none : Option Nat) = some 200) ∨
       (∃ prefs, (some (200, [("listen_port", 4242)]) : HttpResp Prefs) = some (200, prefs) ∧
         prefs.lookup "listen_port" = some p ∧
         setCalls (initial_check ⟨⟨"h", "u", "p", false, true⟩, none⟩ (some "4242") none
           (some (200, [("listen_port", 4242)])) none none).2 = []))) :=
  last_port_update_discipline ⟨"h", "u", "p", false, true⟩
    ⟨⟨"h", "u", "p", false, true⟩, none⟩ ⟨⟨"h", "u", "p", false, true⟩, none⟩
    (some "7777") (some "4242") none none none (some 200) none
    (some (200, [("listen_port", 4242)])) (by decide) (by decide)
